import Mathlib

/-!
Verification of the exec dispatcher (src/command/exec.rs): a shallow
embedding of the argument builder, the invocation runner and the
selection/validation loop, together with theorems about the argument
sequences and the outcome classification.
-/

set_option maxHeartbeats 1000000

namespace ClickExec

/-- Kind of a workload object. Modelled from the spec: a Target has a kind,
which must be the pod kind for exec; other kinds are rejected. -/
inductive ObjKind where
  | pod
  | node
  | deployment
deriving DecidableEq, Repr

/-- Modelled from the spec: a Target is a workload object with a name, an
optional namespace (absence is invalid for exec) and a kind. Mirrors the
fields of KObj that exec.rs reads (kobj.rs is not in src). -/
structure KObj where
  name : String
  «namespace» : Option String
  kind : ObjKind
deriving DecidableEq, Repr

/-- Pod check used by the selection loop, as obj.is_pod() in the source. -/
def KObj.is_pod (o : KObj) : Bool :=
  match o.kind with
  | .pod => true
  | _ => false

/-- Modelled from the spec: the configuration read by this core (config.rs is
not in src): external binary path override, default terminal launcher string,
and the range separator handed to the Selection Driver. -/
structure ClickConfig where
  kubectl_binary : Option String
  terminal : Option String
  range_separator : String
deriving DecidableEq, Repr

/-- Modelled from the spec: the per-run environment (env.rs is not in src):
the configuration, the optional active cluster context name and the optional
impersonation identity. -/
structure Env where
  click_config : ClickConfig
  context : Option String
  impersonate_user : Option String
deriving DecidableEq, Repr

/-- Impersonation accessor, as env.get_impersonate_user() in the source. -/
def Env.get_impersonate_user (env : Env) : Option String :=
  env.impersonate_user

/-- Kind of an io error, partitioned the way exec.rs partitions
io::ErrorKind: NotFound against everything else. -/
inductive IoErrorKind where
  | notFound
  | permissionDenied
  | other
deriving DecidableEq, Repr

/-- An io error: its kind and its description. -/
structure IoError where
  kind : IoErrorKind
  msg : String
deriving DecidableEq, Repr

/-- The error type of the dispatcher, restricted to the variants exec.rs
produces: CommandError with a message, and Io wrapping an io error. -/
inductive ClickError where
  | commandError (msg : String)
  | io (e : IoError)
deriving DecidableEq, Repr

/-- Modelled from the spec: the conversion applied by the question-mark
operator in the terminal branch (the From impl in error.rs is not in src);
per the spec taxonomy a process-launch error other than the classified
cases surfaces as IoFailure carrying the underlying description. -/
def ClickError.from_io (e : IoError) : ClickError :=
  ClickError.io e

/-- Behaviour of the operating system on one spawn attempt: either the
process was created (and, in foreground mode, exited with the recorded
success flag), or the launch itself failed with an io error. -/
inductive SpawnResult where
  | spawned (exitSuccess : Bool)
  | launchErr (e : IoError)
deriving DecidableEq, Repr

/-- A single quote character, used in the binary-not-found messages. -/
def squote : String :=
  (Char.ofNat 39).toString

/-- Accumulating pass over the characters: collect maximal runs of
non-whitespace characters, in order. The second argument holds the
characters of the current run, reversed. -/
def split_whitespace_aux : List Char → List Char → List String
  | [], acc => if acc.isEmpty then [] else [String.mk acc.reverse]
  | c :: cs, acc =>
    if c.isWhitespace then
      if acc.isEmpty then split_whitespace_aux cs []
      else String.mk acc.reverse :: split_whitespace_aux cs []
    else split_whitespace_aux cs (c :: acc)

/-- Whitespace tokenization of the terminal launcher string, as
str::split_whitespace in the source: the maximal whitespace-free runs, with
no empty tokens. -/
def split_whitespace (s : String) : List String :=
  split_whitespace_aux s.data []

instance : DecidableEq (Except ClickError Unit) := fun a b =>
  match a, b with
  | .ok (), .ok () => isTrue rfl
  | .error e1, .error e2 =>
    if h : e1 = e2 then isTrue (by rw [h])
    else isFalse (fun hh => h (by cases hh; rfl))
  | .ok _, .error _ => isFalse (fun h => by cases h)
  | .error _, .ok _ => isFalse (fun h => by cases h)

/-- Observable outcome of one do_exec call: the program spawned, the
argument list handed to it, the lines written to the operator-visible
writer, and the returned result. -/
structure DoExecResult where
  program : String
  args : List String
  output : List String
  result : Except ClickError Unit
deriving DecidableEq, Repr

/-- Resolution of the terminal launcher string in do_exec: the per-call
override wins, then the configured default, then the built-in default. -/
def resolved_terminal (env : Env) (term_opt : Option String) : String :=
  match term_opt with
  | some t => t
  | none =>
    match env.click_config.terminal with
    | some t => t
    | none => "xterm -e"

/-- Embedding of do_exec from src/command/exec.rs. The namespace unwrap at
the top is modelled by returning none (a panic) when the namespace is
absent; the process launch is abstracted by the spawn parameter, which
stands for what the operating system does with the built invocation. The
terminal branch indexes targs[0], modelled by the match on targs. -/
def do_exec (env : Env) (pod : KObj) (kluster_name : String) (cmd : List String)
    (it_arg : Option String) (cont_opt : Option String) (term_opt : Option String)
    (do_terminal : Bool) (spawn : String → List String → SpawnResult) :
    Option DoExecResult :=
  match pod.«namespace» with
  | none => none
  | some ns =>
    let kubectl_binary := env.click_config.kubectl_binary.getD "kubectl"
    if do_terminal then
      let terminal := resolved_terminal env term_opt
      let targs : List String :=
        split_whitespace terminal
          ++ [kubectl_binary, "--namespace", ns, "--context", kluster_name, "exec"]
          ++ (match it_arg with | some it => [it] | none => [])
          ++ [pod.name]
          ++ (match cont_opt with | some cont => ["-c", cont] | none => [])
          ++ (match env.get_impersonate_user with | some user => ["--as", user] | none => [])
          ++ ["--"] ++ cmd
      let output := ["Starting on " ++ pod.name ++ " in terminal"]
      match targs with
      | [] => none
      | prog :: rest =>
        let result : Except ClickError Unit :=
          match spawn prog rest with
          | .spawned _ => Except.ok ()
          | .launchErr e => Except.error (ClickError.from_io e)
        some ⟨prog, rest, output, result⟩
    else
      let args : List String :=
        ["--namespace", ns, "--context", kluster_name, "exec"]
          ++ (match it_arg with | some it => [it] | none => [])
          ++ [pod.name]
          ++ (match env.get_impersonate_user with | some user => ["--as", user] | none => [])
          ++ (match cont_opt with
              | some cont => ["-c", cont, "--"] ++ cmd
              | none => ["--"] ++ cmd)
      let result : Except ClickError Unit :=
        match spawn kubectl_binary args with
        | .spawned s =>
          if s then Except.ok ()
          else Except.error (ClickError.commandError "kubectl exited abnormally")
        | .launchErr e =>
          match e.kind with
          | .notFound =>
            let msg :=
              if kubectl_binary.startsWith "/" then
                "Could not find kubectl binary: " ++ squote ++ kubectl_binary ++ squote
                  ++ ". Does it exist?"
              else
                "Could not find kubectl binary: " ++ squote ++ kubectl_binary ++ squote
                  ++ ". Is it in your PATH?"
            Except.error (ClickError.commandError msg)
          | _ => Except.error (ClickError.io e)
      some ⟨kubectl_binary, args, [], result⟩

/-- State of one boolean command-line flag as the argument matcher exposes
it to the code in exec.rs: whether the flag occurred at all (contains_id)
and the explicit value, when one was given (get_one). -/
structure FlagState where
  present : Bool
  value : Option Bool
deriving DecidableEq, Repr

/-- Embedding of the tty / stdin resolution expression in the Exec closure:
not contains_id or get_one(..).unwrap(). The unwrap of a missing value is
modelled by none (a panic); the or short-circuits, so an absent flag never
touches the value. -/
def resolve_flag (f : FlagState) : Option Bool :=
  if !f.present then some true
  else f.value

/-- Embedding of the attachment-token match in the Exec closure. -/
def it_arg (tty stdin : Bool) : Option String :=
  match tty, stdin with
  | true, true => some "-it"
  | true, false => some "-t"
  | false, true => some "-i"
  | false, false => none

/-- Result of the per-target executor on one target: the namespace unwrap
panicked, do_exec ran and produced its observable outcome, or the target
was rejected before any invocation was attempted. -/
inductive TargetResult where
  | panicked
  | ran (r : DoExecResult)
  | rejected (e : ClickError)
deriving DecidableEq, Repr

/-- Embedding of the per-target closure handed to apply_to_selection in the
Exec command: pod targets go to do_exec, anything else is rejected with the
domain error without building arguments or spawning. -/
def exec_closure (env : Env) (context_name : String) (cmd : List String)
    (it : Option String) (cont_opt : Option String) (term_opt : Option String)
    (do_terminal : Bool) (spawn : String → List String → SpawnResult)
    (obj : KObj) : TargetResult :=
  if obj.is_pod then
    match do_exec env obj context_name cmd it cont_opt term_opt do_terminal spawn with
    | some r => .ran r
    | none => .panicked
  else
    .rejected (ClickError.commandError "Exec only possible on pods")

/-- Modelled from the spec: the Selection Driver (apply_to_selection is not
in src) supplies an ordered sequence of Targets and invokes the per-target
executor on each in selection order; the continue/abort policy on a
per-target error belongs to the driver, so here every per-target result is
collected. -/
def apply_to_selection (targets : List KObj) (f : KObj → TargetResult) :
    List TargetResult :=
  targets.map f

/-- Argument-matcher state for one Exec invocation, as exec.rs reads it:
the required trailing command, the optional container and terminal values,
whether the terminal flag occurred, and the two boolean flag states. -/
structure ExecMatches where
  command : List String
  container : Option String
  terminal_value : Option String
  terminal_present : Bool
  tty : FlagState
  stdin : FlagState
deriving DecidableEq, Repr

/-- Embedding of the Exec command closure in src/command/exec.rs: check the
active context, resolve the tty and stdin flags (none models the unwrap
panic), build the attachment token, then run the per-target closure over
the selection. -/
def exec_command (env : Env) (m : ExecMatches) (targets : List KObj)
    (spawn : String → List String → SpawnResult) :
    Option (Except ClickError (List TargetResult)) :=
  match env.context with
  | none =>
    some (Except.error
      (ClickError.commandError "Need an active context in order to exec."))
  | some context_name =>
    match resolve_flag m.tty with
    | none => none
    | some tty =>
      match resolve_flag m.stdin with
      | none => none
      | some stdin =>
        let it := it_arg tty stdin
        some (Except.ok (apply_to_selection targets
          (exec_closure env context_name m.command it m.container
            m.terminal_value m.terminal_present spawn)))

/-! Concrete fixtures used by witnesses and counterexamples. -/

/-- Configuration with no overrides, as a fresh run would have. -/
def sampleConfig : ClickConfig :=
  { kubectl_binary := none, terminal := none, range_separator := " " }

/-- Environment with an active context and no impersonation. -/
def sampleEnv : Env :=
  { click_config := sampleConfig, context := some "prod", impersonate_user := none }

/-- Environment with an impersonation identity configured. -/
def adminEnv : Env :=
  { click_config := sampleConfig, context := some "prod", impersonate_user := some "admin" }

/-- Environment with no active context. -/
def noCtxEnv : Env :=
  { click_config := sampleConfig, context := none, impersonate_user := none }

/-- Pod target with a namespace. -/
def samplePod : KObj :=
  { name := "web-0", «namespace» := some "default", kind := ObjKind.pod }

/-- Non-pod target. -/
def sampleNode : KObj :=
  { name := "node-1", «namespace» := some "default", kind := ObjKind.node }

/-! Helper lemma shared by the terminal-mode theorems. -/

/-- Characterization of do_exec in terminal mode on a namespaced target: the
built invocation is nonempty, its head is spawned on its tail, the
announcement line is written, and the result classifies only the launch. -/
theorem do_exec_terminal_eq (env : Env) (pod : KObj) (ns kluster_name : String)
    (cmd : List String) (it cont term : Option String)
    (spawn : String → List String → SpawnResult)
    (h : pod.«namespace» = some ns) :
    ∃ prog rest,
      prog :: rest =
        split_whitespace (resolved_terminal env term)
          ++ (env.click_config.kubectl_binary.getD "kubectl")
            :: "--namespace" :: ns :: "--context" :: kluster_name :: "exec"
            :: (it.toList
                ++ pod.name
                :: ((match cont with | some c => ["-c", c] | none => [])
                    ++ (match env.get_impersonate_user with
                        | some u => ["--as", u]
                        | none => [])
                    ++ "--" :: cmd)) ∧
      do_exec env pod kluster_name cmd it cont term true spawn =
        some ⟨prog, rest, ["Starting on " ++ pod.name ++ " in terminal"],
          match spawn prog rest with
          | .spawned _ => Except.ok ()
          | .launchErr e => Except.error (ClickError.from_io e)⟩ := by
  simp only [do_exec, h]
  cases hts : split_whitespace (resolved_terminal env term) with
  | nil =>
    refine ⟨_, _, ?_, rfl⟩
    cases it <;> cases cont <;> cases env.get_impersonate_user <;>
      simp [Option.toList]
  | cons a as =>
    refine ⟨_, _, ?_, rfl⟩
    cases it <;> cases cont <;> cases env.get_impersonate_user <;>
      simp [Option.toList]

/-! Claim theorems. -/

/-- C1: in foreground mode, for every pod target, cluster context,
attachment token, optional container and optional impersonation identity,
the built argument sequence is exactly namespace and context flags, exec,
the attachment token if any, the target name, the impersonation flag if
configured, the container flag if given, and the separator followed
immediately by the command tokens. -/
theorem C1_foreground_argument_sequence (env : Env) (pod : KObj)
    (ns kluster_name : String) (cmd : List String) (it cont term : Option String)
    (spawn : String → List String → SpawnResult)
    (h : pod.«namespace» = some ns) :
    ∃ r, do_exec env pod kluster_name cmd it cont term false spawn = some r ∧
      r.args =
        ["--namespace", ns, "--context", kluster_name, "exec"]
          ++ it.toList
          ++ [pod.name]
          ++ (match env.get_impersonate_user with
              | some u => ["--as", u]
              | none => [])
          ++ (match cont with | some c => ["-c", c] | none => [])
          ++ "--" :: cmd := by
  simp only [do_exec, h]
  refine ⟨_, rfl, ?_⟩
  cases it <;> cases cont <;> cases env.get_impersonate_user <;>
    simp [Option.toList]

/-- Witness for C1 on a concrete pod in foreground mode with attachment
token, no container and no impersonation. -/
theorem C1_foreground_argument_sequence_witness :
    samplePod.«namespace» = some "default" ∧
    (∃ r, do_exec sampleEnv samplePod "prod" ["ls"] (some "-it") none none false
        (fun _ _ => SpawnResult.spawned true) = some r ∧
      r.args = ["--namespace", "default", "--context", "prod", "exec", "-it",
        "web-0", "--", "ls"]) := by
  refine ⟨rfl, ?_⟩
  obtain ⟨r, h1, h2⟩ := C1_foreground_argument_sequence sampleEnv samplePod "default"
    "prod" ["ls"] (some "-it") none none (fun _ _ => SpawnResult.spawned true) rfl
  exact ⟨r, h1, h2.trans (by decide)⟩

/-- C2: in terminal mode the invocation is the whitespace-tokenized resolved
launcher, then the external binary, the namespace and context flags, exec,
the attachment token if any, the target name, the container flag if given,
the impersonation flag if configured, then the separator and the command
tokens; the container flag precedes the impersonation flag, the reverse of
foreground mode. -/
theorem C2_terminal_argument_sequence (env : Env) (pod : KObj)
    (ns kluster_name : String) (cmd : List String) (it cont term : Option String)
    (spawn : String → List String → SpawnResult)
    (h : pod.«namespace» = some ns) :
    ∃ r, do_exec env pod kluster_name cmd it cont term true spawn = some r ∧
      r.program :: r.args =
        split_whitespace (resolved_terminal env term)
          ++ (env.click_config.kubectl_binary.getD "kubectl")
            :: "--namespace" :: ns :: "--context" :: kluster_name :: "exec"
            :: (it.toList
                ++ pod.name
                :: ((match cont with | some c => ["-c", c] | none => [])
                    ++ (match env.get_impersonate_user with
                        | some u => ["--as", u]
                        | none => [])
                    ++ "--" :: cmd)) := by
  obtain ⟨prog, rest, hpr, heq⟩ :=
    do_exec_terminal_eq env pod ns kluster_name cmd it cont term spawn h
  exact ⟨_, heq, hpr⟩

/-- Witness for C2 on a concrete pod in terminal mode with the default
launcher, a container and an impersonation identity, showing the container
flag placed before the impersonation flag. -/
theorem C2_terminal_argument_sequence_witness :
    samplePod.«namespace» = some "default" ∧
    (∃ r, do_exec adminEnv samplePod "prod" ["ls"] (some "-it") (some "app") none true
        (fun _ _ => SpawnResult.spawned true) = some r ∧
      r.program :: r.args = ["xterm", "-e", "kubectl", "--namespace", "default",
        "--context", "prod", "exec", "-it", "web-0", "-c", "app", "--as", "admin",
        "--", "ls"]) := by
  refine ⟨rfl, ?_⟩
  obtain ⟨r, h1, h2⟩ := C2_terminal_argument_sequence adminEnv samplePod "default"
    "prod" ["ls"] (some "-it") (some "app") none (fun _ _ => SpawnResult.spawned true) rfl
  exact ⟨r, h1, h2.trans (by decide)⟩

/-- C3: the attachment-token mapping is total on the four boolean pairs and
yields the combined token for tty with stdin, the tty-only token for tty
alone, the stdin-only token for stdin alone, and no token for neither. -/
theorem C3_attachment_token_table :
    it_arg true true = some "-it" ∧
    it_arg true false = some "-t" ∧
    it_arg false true = some "-i" ∧
    it_arg false false = none := by
  decide

/-- C4: foreground outcome classification is exhaustive and exclusive: a
successful exit yields Success, a non-success exit yields the external
failure message, a not-found launch error yields the binary-not-found
message whose text depends on whether the configured binary path starts
with the path separator, and any other launch error is wrapped as an io
failure. -/
theorem C4_foreground_outcome_classification (env : Env) (pod : KObj)
    (ns kluster_name : String) (cmd : List String) (it cont term : Option String)
    (msg : String) (h : pod.«namespace» = some ns) :
    (do_exec env pod kluster_name cmd it cont term false
        (fun _ _ => SpawnResult.spawned true)).map DoExecResult.result
      = some (Except.ok ()) ∧
    (do_exec env pod kluster_name cmd it cont term false
        (fun _ _ => SpawnResult.spawned false)).map DoExecResult.result
      = some (Except.error
          (ClickError.commandError "kubectl exited abnormally")) ∧
    (do_exec env pod kluster_name cmd it cont term false
        (fun _ _ => SpawnResult.launchErr ⟨IoErrorKind.notFound, msg⟩)).map
        DoExecResult.result
      = some (Except.error (ClickError.commandError
          (if (env.click_config.kubectl_binary.getD "kubectl").startsWith "/" then
            "Could not find kubectl binary: " ++ squote
              ++ env.click_config.kubectl_binary.getD "kubectl" ++ squote
              ++ ". Does it exist?"
          else
            "Could not find kubectl binary: " ++ squote
              ++ env.click_config.kubectl_binary.getD "kubectl" ++ squote
              ++ ". Is it in your PATH?"))) ∧
    (∀ k : IoErrorKind, k ≠ IoErrorKind.notFound →
      (do_exec env pod kluster_name cmd it cont term false
          (fun _ _ => SpawnResult.launchErr ⟨k, msg⟩)).map DoExecResult.result
        = some (Except.error (ClickError.io ⟨k, msg⟩))) := by
  refine ⟨?_, ?_, ?_, ?_⟩
  · simp [do_exec, h]
  · simp [do_exec, h]
  · simp [do_exec, h]
  · intro k hk
    cases k with
    | notFound => exact absurd rfl hk
    | permissionDenied => simp [do_exec, h]
    | other => simp [do_exec, h]

/-- Witness for C4 on a concrete pod: a non-success exit status maps to the
external-failure message. -/
theorem C4_foreground_outcome_classification_witness :
    samplePod.«namespace» = some "default" ∧
    (do_exec sampleEnv samplePod "prod" ["ls"] (some "-it") none none false
        (fun _ _ => SpawnResult.spawned false)).map DoExecResult.result
      = some (Except.error (ClickError.commandError "kubectl exited abnormally")) :=
  ⟨rfl, (C4_foreground_outcome_classification sampleEnv samplePod "default" "prod"
    ["ls"] (some "-it") none none "boom" rfl).2.1⟩

/-- C5 counterexample: in terminal mode a not-found launch error is wrapped
as a generic io failure, not as the binary-not-found message produced by
the foreground classification, so terminal launch failures are not
classified identically to foreground ones. -/
theorem C5_terminal_notfound_counterexample :
    (do_exec sampleEnv samplePod "prod" ["ls"] (some "-it") none none true
        (fun _ _ => SpawnResult.launchErr ⟨IoErrorKind.notFound, "nf"⟩)).map
        DoExecResult.result
      = some (Except.error (ClickError.io ⟨IoErrorKind.notFound, "nf"⟩)) ∧
    (do_exec sampleEnv samplePod "prod" ["ls"] (some "-it") none none true
        (fun _ _ => SpawnResult.launchErr ⟨IoErrorKind.notFound, "nf"⟩)).map
        DoExecResult.result
      ≠ some (Except.error (ClickError.commandError
          ("Could not find kubectl binary: " ++ squote ++ "kubectl" ++ squote
            ++ ". Is it in your PATH?"))) := by
  constructor
  · rfl
  · intro hc
    rw [show (do_exec sampleEnv samplePod "prod" ["ls"] (some "-it") none none true
        (fun _ _ => SpawnResult.launchErr ⟨IoErrorKind.notFound, "nf"⟩)).map
        DoExecResult.result
      = some (Except.error (ClickError.io ⟨IoErrorKind.notFound, "nf"⟩)) from rfl] at hc
    simp at hc

/-- C5 as amended: in terminal mode a successful launch yields Success no
matter how the spawned process later behaves, and every launch error,
including a not-found error, surfaces as a generic io failure wrapping the
underlying error, without the binary-not-found classification or its
path-form-dependent message. -/
theorem C5_terminal_outcome_classification (env : Env) (pod : KObj)
    (ns kluster_name : String) (cmd : List String) (it cont term : Option String)
    (h : pod.«namespace» = some ns) :
    (∀ b : Bool, (do_exec env pod kluster_name cmd it cont term true
        (fun _ _ => SpawnResult.spawned b)).map DoExecResult.result
      = some (Except.ok ())) ∧
    (∀ e : IoError, (do_exec env pod kluster_name cmd it cont term true
        (fun _ _ => SpawnResult.launchErr e)).map DoExecResult.result
      = some (Except.error (ClickError.io e))) := by
  constructor
  · intro b
    obtain ⟨prog, rest, _, heq⟩ :=
      do_exec_terminal_eq env pod ns kluster_name cmd it cont term
        (fun _ _ => SpawnResult.spawned b) h
    rw [heq]; rfl
  · intro e
    obtain ⟨prog, rest, _, heq⟩ :=
      do_exec_terminal_eq env pod ns kluster_name cmd it cont term
        (fun _ _ => SpawnResult.launchErr e) h
    rw [heq]; rfl

/-- Witness for C5 as amended on a concrete pod: a permission-denied launch
error surfaces as the wrapped io failure. -/
theorem C5_terminal_outcome_classification_witness :
    samplePod.«namespace» = some "default" ∧
    (do_exec sampleEnv samplePod "prod" ["ls"] (some "-it") none none true
        (fun _ _ => SpawnResult.launchErr ⟨IoErrorKind.permissionDenied, "denied"⟩)).map
        DoExecResult.result
      = some (Except.error (ClickError.io ⟨IoErrorKind.permissionDenied, "denied"⟩)) :=
  ⟨rfl, (C5_terminal_outcome_classification sampleEnv samplePod "default" "prod"
    ["ls"] (some "-it") none none rfl).2 ⟨IoErrorKind.permissionDenied, "denied"⟩⟩

/-- C6: the flag resolution is right on an absent flag and on an explicit
value, but on a flag present without a value the code unwraps a missing
value and panics (modelled none) instead of resolving to true; with the tty
flag bare, the whole command dies before any target is processed. -/
theorem C6_flag_resolution_missing_value :
    resolve_flag { present := false, value := none } = some true ∧
    resolve_flag { present := true, value := some true } = some true ∧
    resolve_flag { present := true, value := some false } = some false ∧
    resolve_flag { present := true, value := none } = none ∧
    exec_command sampleEnv
      { command := ["ls"], container := none, terminal_value := none,
        terminal_present := false, tty := { present := true, value := none },
        stdin := { present := false, value := none } }
      [samplePod] (fun _ _ => SpawnResult.spawned true) = none := by
  exact ⟨rfl, rfl, rfl, rfl, rfl⟩

/-- C7: a selected target that is not a pod is short-circuited with the
domain error, with no argument building and no launch: the result does not
depend on the spawn behaviour at all. -/
theorem C7_non_pod_rejected (env : Env) (context_name : String)
    (cmd : List String) (it cont term : Option String) (dt : Bool)
    (spawn : String → List String → SpawnResult) (obj : KObj)
    (h : obj.is_pod = false) :
    exec_closure env context_name cmd it cont term dt spawn obj
      = TargetResult.rejected
          (ClickError.commandError "Exec only possible on pods") := by
  simp [exec_closure, h]

/-- Witness for C7 on a concrete node target. -/
theorem C7_non_pod_rejected_witness :
    sampleNode.is_pod = false ∧
    exec_closure sampleEnv "prod" ["ls"] (some "-it") none none false
      (fun _ _ => SpawnResult.spawned true) sampleNode
      = TargetResult.rejected
          (ClickError.commandError "Exec only possible on pods") :=
  ⟨rfl, C7_non_pod_rejected sampleEnv "prod" ["ls"] (some "-it") none none false
    (fun _ _ => SpawnResult.spawned true) sampleNode rfl⟩

/-- C8: with no active context the command fails immediately with the
precondition error, whatever the matches, the targets and the spawn
behaviour: no target is processed and no launch is attempted. -/
theorem C8_no_context_precondition (env : Env) (m : ExecMatches)
    (targets : List KObj) (spawn : String → List String → SpawnResult)
    (h : env.context = none) :
    exec_command env m targets spawn
      = some (Except.error
          (ClickError.commandError "Need an active context in order to exec.")) := by
  simp [exec_command, h]

/-- Witness for C8 on a concrete context-free environment. -/
theorem C8_no_context_precondition_witness :
    noCtxEnv.context = none ∧
    exec_command noCtxEnv
      { command := ["ls"], container := none, terminal_value := none,
        terminal_present := false, tty := { present := false, value := none },
        stdin := { present := false, value := none } }
      [samplePod] (fun _ _ => SpawnResult.spawned true)
      = some (Except.error
          (ClickError.commandError "Need an active context in order to exec.")) :=
  ⟨rfl, C8_no_context_precondition noCtxEnv _ [samplePod]
    (fun _ _ => SpawnResult.spawned true) rfl⟩

/-- C9: do_exec is defined exactly on targets whose namespace is present:
the unconditional namespace unwrap succeeds and the panic is unreachable
when a namespace exists, and the function panics (modelled none) when the
namespace is absent, in both modes and for every spawn behaviour. -/
theorem C9_namespace_unwrap_totality (env : Env) (pod : KObj)
    (kluster_name : String) (cmd : List String) (it cont term : Option String)
    (dt : Bool) (spawn : String → List String → SpawnResult) :
    (do_exec env pod kluster_name cmd it cont term dt spawn).isSome
      = pod.«namespace».isSome := by
  cases hns : pod.«namespace» with
  | none => simp [do_exec, hns]
  | some ns =>
    cases dt with
    | false => simp [do_exec, hns]
    | true =>
      obtain ⟨prog, rest, _, heq⟩ :=
        do_exec_terminal_eq env pod ns kluster_name cmd it cont term spawn hns
      rw [heq]; rfl

/-- C10: in terminal mode the announcement line is written before the
launch is attempted, so it is present in the operator-visible output for
every spawn behaviour, in particular when the launch fails. -/
theorem C10_terminal_announce_before_launch (env : Env) (pod : KObj)
    (ns kluster_name : String) (cmd : List String) (it cont term : Option String)
    (spawn : String → List String → SpawnResult)
    (h : pod.«namespace» = some ns) :
    ∃ r, do_exec env pod kluster_name cmd it cont term true spawn = some r ∧
      r.output = ["Starting on " ++ pod.name ++ " in terminal"] := by
  obtain ⟨prog, rest, _, heq⟩ :=
    do_exec_terminal_eq env pod ns kluster_name cmd it cont term spawn h
  exact ⟨_, heq, rfl⟩

/-- Witness for C10 on a concrete pod whose launch fails with a not-found
error: the announcement line was still emitted. -/
theorem C10_terminal_announce_before_launch_witness :
    samplePod.«namespace» = some "default" ∧
    (∃ r, do_exec sampleEnv samplePod "prod" ["ls"] (some "-it") none none true
        (fun _ _ => SpawnResult.launchErr ⟨IoErrorKind.notFound, "nf"⟩) = some r ∧
      r.output = ["Starting on " ++ samplePod.name ++ " in terminal"]) :=
  ⟨rfl, C10_terminal_announce_before_launch sampleEnv samplePod "default" "prod"
    ["ls"] (some "-it") none none
    (fun _ _ => SpawnResult.launchErr ⟨IoErrorKind.notFound, "nf"⟩) rfl⟩

end ClickExec
